import Mathlib

/-!
# Post Hole / FormHole — verification of the record-store CRUD service

Shallow embedding of the storage/service layer of the FormHole repository.
The repository holds several revisions of the same service:

* `src/app/routers/items.py`, `src/app/routers/models.py` — the current
  SQLModel/SQLite revision (one relational table `Item`, `data` stored as a
  `json.dumps` string);
* `src/app/main.py` — an earlier single-file copy of the same SQLModel
  handlers;
* `src/main.py` — the oldest revision, a document store (`DBProxy`) holding a
  mapping id → record body;
* `src/app/databases.py` — the `DBProxy` class backed by `pysondb`, persisted
  either to a local JSON file or to an S3 object.

Machine conventions used throughout:

* timestamps (`datetime.now()`) are modelled as `Nat` ticks supplied
  explicitly by the caller (`now` parameters), since the handlers only ever
  store and compare them;
* Python `float` version tags are modelled as `Rat`: the code never does
  arithmetic on `version`, it only stores, returns and groups by it, so any
  carrier with decidable equality that contains the JSON numerals is
  faithful;
* the SQLite table is a list of rows in rowid order, with the auto-increment
  primary key modelled by a `nextId` counter.
-/

namespace FormHole

/-- JSON-compatible payload values: the shape of the request `data` field
(`data: dict` in the pydantic models).  Arrays and objects are represented
as cons-chains inside the one inductive (`arrNil`/`arrCons`,
`objNil`/`objCons`), so `{"a": 1}` is `.objCons "a" (.num 1) .objNil`.
The store treats the payload as opaque — it is serialized, stored,
deserialized and returned, never inspected — so all that matters of the
carrier is that it contains every JSON value and has decidable equality. -/
inductive Json where
  | null
  | bool (b : Bool)
  | num (n : Int)
  | str (s : String)
  | arrNil
  | arrCons (hd tl : Json)
  | objNil
  | objCons (key : String) (val tl : Json)
deriving DecidableEq, Repr

/-- The `data` column of the relational `Item` table holds the payload as the
string produced by `json.dumps` (validator `Item.convert_data_dict_to_str`,
src/app/routers/items.py lines 95-102); every read applies `json.loads` to
it.  `json.dumps`/`json.loads` belong to the Python standard library, not to
this repository; they are modelled abstractly as an exact
serialize/deserialize pair: `SerializedJson.dumps` tags a value as
serialized and `SerializedJson.loads` recovers it.  Within this repository
`json.loads` is only ever applied to strings produced by `json.dumps`, so
the pair is total here. -/
structure SerializedJson where
  dumps ::
  loads : Json
deriving DecidableEq, Repr

/-- One row of the relational `Item` table
(src/app/routers/items.py lines 82-102): auto-increment integer primary key,
`data` stored serialized, `deleted` soft-delete flag, `created` set once,
`last_updated` absent until the first update. -/
structure Item where
  id : Nat
  model : String
  version : Rat
  data : SerializedJson
  deleted : Bool
  created : Nat
  last_updated : Option Nat
deriving DecidableEq, Repr

/-- The response shape `ItemRead` (src/app/routers/items.py lines 40-60):
same fields as the row, but `data` deserialized back to a structured value
(the `json.loads` hack applied before returning). -/
structure ItemRead where
  id : Nat
  model : String
  version : Rat
  data : Json
  deleted : Bool
  created : Nat
  last_updated : Option Nat
deriving DecidableEq, Repr

/-- Request body for POST `/` (`ItemCreate`, src/app/routers/items.py lines
22-37).  At the HTTP layer `version` defaults to `0` and `deleted` to
`False`; the embedding receives the resolved values. -/
structure ItemCreate where
  model : String
  version : Rat
  data : Json
  deleted : Bool
deriving DecidableEq, Repr

/-- Request body for PATCH `/item/{item_id}` (`ItemUpdate`,
src/app/routers/items.py lines 63-79).  All four fields are `Optional`;
`item.dict(exclude_unset=True)` keeps exactly the fields the caller
supplied, modelled here by `Option` (`none` = not supplied). -/
structure ItemUpdate where
  model : Option String
  version : Option Rat
  data : Option Json
  deleted : Option Bool
deriving DecidableEq, Repr

/-- State of the SQLite database behind the SQLModel session: the rows of
the `Item` table in rowid order, plus the next auto-increment primary key. -/
structure DBState where
  rows : List Item
  nextId : Nat
deriving DecidableEq, Repr

/-- The ways a handler call can end other than with a payload:
`notFound` is `HTTPException(status_code=404, detail="Item not found")`;
`attributeError` is an unhandled Python `AttributeError` escaping the
handler (surfaced by the framework as a 500, not as a declined 404). -/
inductive ApiError where
  | notFound
  | attributeError
deriving DecidableEq, Repr

/-- Embeds `session.get(Item, item_id)`: point lookup by primary key.  On a list of
rows this is the first row with the given id (the primary key is unique, so
at most one row matches). -/
def sessionGet (rows : List Item) (item_id : Nat) : Option Item :=
  rows.find? (fun r => r.id == item_id)

/-- The "Hack: Convert the string instance of data to dict" step applied by
every handler before returning a row: `item.data = json.loads(item.data)`. -/
def itemToRead (r : Item) : ItemRead :=
  { id := r.id, model := r.model, version := r.version, data := r.data.loads,
    deleted := r.deleted, created := r.created, last_updated := r.last_updated }

/-- Embeds `select(Item) if show_deleted else select(Item).where(Item.deleted != True)`
(src/app/routers/items.py lines 128-130): the deleted-visibility filter of
every list query. -/
def selectDeletedFilter (show_deleted : Bool) (rows : List Item) : List Item :=
  if show_deleted then rows else rows.filter (fun r => !r.deleted)

/-- Embeds `.offset(offset)` with SQLite semantics: a negative OFFSET behaves as 0
(`Int.toNat` sends negatives to 0). -/
def sqlOffset (offset : Int) (rows : List Item) : List Item :=
  rows.drop offset.toNat

/-- Embeds `.limit(limit)` with SQLite semantics: a negative LIMIT means
"no limit", a non-negative one keeps at most that many rows. -/
def sqlLimit (limit : Int) (rows : List Item) : List Item :=
  if limit < 0 then rows else rows.take limit.toNat

/-- The pagination `limit` parameter is declared as
`limit: int = Query(default=100, lte=100)` (src/app/routers/items.py line
116, src/app/routers/models.py line 81, src/app/main.py lines 101 and 252).
`lte` is not a validation keyword of `fastapi.Query` — the less-than-or-equal
validator is spelled `le` — so `lte=100` lands in the unvalidated `**extra`
schema metadata and is never enforced.  The resolved limit is therefore the
caller's value unchanged, or the default `100` when the caller passes none. -/
def resolveLimit (limit : Option Int) : Int :=
  limit.getD 100

/-- GET `/items` (`list_items`, src/app/routers/items.py lines 111-139; the
copy in src/app/main.py lines 96-117 is identical): deleted-visibility
filter, then OFFSET/LIMIT, then the `json.loads` conversion of each row. -/
def list_items (show_deleted : Bool) (offset : Int) (limit : Option Int)
    (rows : List Item) : List ItemRead :=
  (sqlLimit (resolveLimit limit) (sqlOffset offset
      (selectDeletedFilter show_deleted rows))).map itemToRead

/-- GET `/item/{item_id}` (`read_item`, src/app/routers/items.py lines
148-170): point lookup; a row that is soft-deleted while `show_deleted` is
false is treated exactly like a missing row (404). -/
def read_item (item_id : Nat) (show_deleted : Bool) (rows : List Item) :
    Except ApiError ItemRead :=
  match sessionGet rows item_id with
  | none => .error .notFound
  | some item =>
      if !show_deleted && item.deleted then .error .notFound
      else .ok (itemToRead item)

/-- POST `/` (`create_item`, src/app/routers/items.py lines 176-199): builds
the row (the `Item` validator serializes `data`), `created := now`,
`last_updated` unset, commits it — SQLite assigns the next auto-increment
id — and returns the row with `data` deserialized. -/
def create_item (st : DBState) (now : Nat) (item : ItemCreate) :
    ItemRead × DBState :=
  let db_item : Item :=
    { id := st.nextId, model := item.model, version := item.version,
      data := SerializedJson.dumps item.data, deleted := item.deleted,
      created := now, last_updated := none }
  (itemToRead db_item, { rows := st.rows ++ [db_item], nextId := st.nextId + 1 })

/-- The `setattr` loop of PATCH (src/app/routers/items.py lines 230-237):
each supplied field overwrites the row's field, with a supplied `data`
passed through `json.dumps` first; unsupplied fields are untouched. -/
def applyItemUpdate (patch : ItemUpdate) (r : Item) : Item :=
  { r with
    model := patch.model.getD r.model,
    version := patch.version.getD r.version,
    data := match patch.data with
            | some d => SerializedJson.dumps d
            | none => r.data,
    deleted := patch.deleted.getD r.deleted }

/-- PATCH `/item/{item_id}` (`update_item`, src/app/routers/items.py lines
208-246; the copy in src/app/main.py lines 175-213 is identical).  The
source checks `if not update_deleted and db_item.deleted:` BEFORE testing
`db_item` for `None`: when the id is absent and `update_deleted` is false,
evaluating `db_item.deleted` on `None` raises `AttributeError` instead of
reaching the 404 branch; when `update_deleted` is true the `and`
short-circuits and the 404 branch is reached. -/
def update_item (st : DBState) (now : Nat) (item_id : Nat)
    (patch : ItemUpdate) (update_deleted : Bool) :
    Except ApiError (ItemRead × DBState) :=
  match sessionGet st.rows item_id with
  | none =>
      if update_deleted then .error .notFound else .error .attributeError
  | some db_item =>
      if !update_deleted && db_item.deleted then .error .notFound
      else
        let updated : Item :=
          { applyItemUpdate patch db_item with last_updated := some now }
        .ok (itemToRead updated,
             { st with rows :=
                 st.rows.map (fun r => if r.id == item_id then updated else r) })

/-- DELETE `/item/{item_id}` (`delete_item`, src/app/routers/items.py lines
252-275): 404 when the id is absent; `permanent=True` removes the row,
otherwise the row is updated in place with `deleted := true` and
`last_updated := now`. -/
def delete_item (st : DBState) (now : Nat) (item_id : Nat)
    (permanent : Bool) : Except ApiError DBState :=
  match sessionGet st.rows item_id with
  | none => .error .notFound
  | some item =>
      if permanent then
        .ok { st with rows := st.rows.filter (fun r => r.id != item_id) }
      else
        let updated : Item :=
          { item with deleted := true, last_updated := some now }
        .ok { st with rows :=
                st.rows.map (fun r => if r.id == item_id then updated else r) }

/-- GET `/model/{model_name}` (`read_model_items`,
src/app/routers/models.py lines 75-101): deleted-visibility filter AND
`.where(Item.model == model_name)`, then OFFSET/LIMIT, then the
`json.loads` conversion. -/
def read_model_items (model_name : String) (show_deleted : Bool)
    (offset : Int) (limit : Option Int) (rows : List Item) : List ItemRead :=
  (sqlLimit (resolveLimit limit) (sqlOffset offset
      ((selectDeletedFilter show_deleted rows).filter
        (fun r => r.model == model_name)))).map itemToRead

/-- GET `/model/{model_name}` in the earlier single-file revision
(`read_model_items`, src/app/main.py lines 247-268).  Its query is
`select(Item)` (or with the deleted filter), offset, limit — the
`model_name` path parameter is never used in the query: no
`.where(Item.model == model_name)` clause exists in this revision. -/
def read_model_items_legacy (model_name : String) (show_deleted : Bool)
    (offset : Int) (limit : Option Int) (rows : List Item) : List ItemRead :=
  let _ := model_name
  (sqlLimit (resolveLimit limit) (sqlOffset offset
      (selectDeletedFilter show_deleted rows))).map itemToRead

/-- POST `/model/{model_name}` (`create_model_item`,
src/app/routers/models.py lines 107-135): builds the row from the path
model name, the `version` query parameter (default
`settings.create_model_item_version_default = 0`) and the request body as
`data`; `deleted` takes its field default `False`. -/
def create_model_item (st : DBState) (now : Nat) (model_name : String)
    (post_data : Json) (version : Option Rat) : ItemRead × DBState :=
  let db_item : Item :=
    { id := st.nextId, model := model_name, version := version.getD 0,
      data := SerializedJson.dumps post_data, deleted := false,
      created := now, last_updated := none }
  (itemToRead db_item, { rows := st.rows ++ [db_item], nextId := st.nextId + 1 })

/-- First-occurrence deduplication: the order in which `GROUP BY Item.model`
groups (and `collections.Counter` keys) are enumerated here.  SQLite emits
groups in an unspecified order and `Counter` keeps insertion order; none of
the verified properties depend on the enumeration order, so the embedding
fixes first-occurrence order. -/
def firstOccur {α : Type} [DecidableEq α] (l : List α) : List α :=
  l.foldl (fun acc v => if v ∈ acc then acc else acc ++ [v]) []

/-- Embeds `collections.Counter` over a list of values, as an association list in
first-occurrence key order: each distinct value paired with its number of
occurrences. -/
def counter {α : Type} [DecidableEq α] (l : List α) : List (α × Nat) :=
  (firstOccur l).map (fun v => (v, l.count v))

/-- Embeds `func.min` over the `created` column of one non-empty group (0 on an
empty list, which never occurs for a `GROUP BY` group). -/
def aggMin : List Nat → Nat
  | [] => 0
  | x :: xs => xs.foldl Nat.min x

/-- Embeds `func.max` over the `created` column of one group. -/
def aggMax : List Nat → Nat
  | [] => 0
  | x :: xs => xs.foldl Nat.max x

/-- One row of the GET `/model/list` response (`ModelMetadata`,
src/app/routers/models.py lines 16-23).  `count` is the active count
(`count(id) - total(deleted)`; in the embedding the plain `Nat` subtraction,
which never truncates because the deleted rows of a group are among its
rows).  `versions` is the `Counter` over the group's `version` values: the
SQL pipeline `group_concat(version)` → `.split(",")` → `Counter` →
`Dict[float, int]` is the frequency count of the version values themselves,
because Python's float-to-string map is injective and produces no commas;
the embedding composes the round-trip away and counts the values directly. -/
structure ModelMetadata where
  model : String
  count : Nat
  delete_count : Nat
  total_count : Nat
  oldest_timestamp : Nat
  newest_timestamp : Nat
  versions : List (Rat × Nat)
deriving DecidableEq, Repr

/-- GET `/model/list` (`read_model_list`, src/app/routers/models.py lines
29-66): one aggregate row per distinct `model` value over the whole table —
`count(Item.id)`, `total(Item.deleted)` (the number of soft-deleted rows,
since `deleted` is 0/1), `min`/`max` of `created`, and the version
frequency histogram; `count` in the response is
`result.count - result.delete_count`.  `modelRow` is the row built for one
group; `read_model_list` maps it over the distinct models. -/
def modelRow (rows : List Item) (m : String) : ModelMetadata :=
  { model := m,
    count := (rows.filter (fun r => r.model == m)).length -
      ((rows.filter (fun r => r.model == m)).filter (fun r => r.deleted)).length,
    delete_count :=
      ((rows.filter (fun r => r.model == m)).filter (fun r => r.deleted)).length,
    total_count := (rows.filter (fun r => r.model == m)).length,
    oldest_timestamp :=
      aggMin ((rows.filter (fun r => r.model == m)).map (fun r => r.created)),
    newest_timestamp :=
      aggMax ((rows.filter (fun r => r.model == m)).map (fun r => r.created)),
    versions :=
      counter ((rows.filter (fun r => r.model == m)).map (fun r => r.version)) }

/-- GET `/model/list`: one `modelRow` per distinct `model` value of the
whole table. -/
def read_model_list (rows : List Item) : List ModelMetadata :=
  (firstOccur (rows.map (fun r => r.model))).map (modelRow rows)

/-! ## The oldest revision: the document store of src/main.py -/

/-- Embeds `Metadata` of the document revision (src/main.py lines 28-33): the ad
hoc flags nested under each record body. -/
structure Metadata where
  test_record : Bool := false
  soft_delete : Bool := false
deriving DecidableEq, Repr

/-- A record body of the document revision (`Item`, src/main.py lines
89-101): the JSON document stored under one id in the `DBProxy` mapping.
`data` is stored natively (document backends are payload-transparent, no
serialization column). -/
structure DocItem where
  created : Nat
  last_updated : Option Nat
  model : String
  version : Rat
  data : Json
  metadata : Metadata
deriving DecidableEq, Repr

/-- POST `/model/{model_name}` of the document revision
(`create_model_item`, src/main.py lines 252-272): the record constructed
and handed to `db.add`.  The handler declares a `version` query parameter
(default 0) and its docstring says "the optional version query param can be
used to set the version being used", but the constructed `Item` passes the
literal `version=0` (src/main.py line 266) — the parameter is never read. -/
def create_model_item_v1 (now : Nat) (model_name : String) (post_data : Json)
    (version : Option Rat) : DocItem :=
  let _version_param := version.getD 0
  { model := model_name, version := 0, created := now, data := post_data,
    metadata := {}, last_updated := none }

/-! ## DBProxy: the pysondb-backed document store of src/app/databases.py -/

/-- The in-memory `pysondb.DB` collection held by `DBProxy`: an
insertion-ordered mapping id → record body, plus a fresh-id source.
`pysondb` is an external dependency (not part of this repository); per the
persisted-state layout it is "a single JSON document whose top-level shape
is a mapping from record-id (string) to a record body".  `DBProxy`
installs `uuid_generator` (`str(uuid.uuid4())`) as the id generator;
fresh, never-repeating ids are modelled by a counter rendered to a
string. -/
structure PysonDB where
  store : List (String × DocItem)
  nextUuid : Nat
deriving DecidableEq, Repr

/-- Generate a fresh id (`DBProxy.uuid_generator`): a never-reused opaque
string. -/
def PysonDB.genId (db : PysonDB) : String × PysonDB :=
  (String.append "uuid-" (toString db.nextUuid), { db with nextUuid := db.nextUuid + 1 })

/-- Models `pysondb` `DB.add`: insert one record body under a fresh id, in memory
only. -/
def PysonDB.addRecord (db : PysonDB) (body : DocItem) : String × PysonDB :=
  let (i, db') := db.genId
  (i, { db' with store := db'.store ++ [(i, body)] })

/-- Models `pysondb` `DB.add_many`: insert each record body in turn, in memory
only. -/
def PysonDB.addManyRecords (db : PysonDB) (bodies : List DocItem) : PysonDB :=
  bodies.foldl (fun d b => (d.addRecord b).2) db

/-- Models `pysondb` `DB.get_by_id`: point lookup in the mapping. -/
def PysonDB.getById (db : PysonDB) (i : String) : Option DocItem :=
  (db.store.find? (fun p => p.1 == i)).map (fun p => p.2)

/-- Models `pysondb` `DB.update_by_id`: replace the body stored under an existing
id; signals not-found (pysondb raises) when the id is absent. -/
def PysonDB.updateById (db : PysonDB) (i : String) (body : DocItem) :
    Option PysonDB :=
  if (db.store.find? (fun p => p.1 == i)).isSome then
    some { db with store := db.store.map (fun p => if p.1 == i then (i, body) else p) }
  else none

/-- Models `pysondb` `DB.pop`: remove the body stored under an existing id;
signals not-found when the id is absent. -/
def PysonDB.popById (db : PysonDB) (i : String) : Option PysonDB :=
  if (db.store.find? (fun p => p.1 == i)).isSome then
    some { db with store := db.store.filter (fun p => p.1 != i) }
  else none

/-- The normalized backend selector of `DBProxy` (`FILE_DB`/`S3_DB`,
src/app/databases.py lines 15-18). -/
def DB_TYPES : List String := ["FILE", "S3"]

/-- Embeds `DB_DEFAULT = FILE_DB` (src/app/databases.py line 18). -/
def DB_DEFAULT : String := "FILE"

/-- Python's `str.upper()` (standard library, not repository code), modelled
character-wise; the backend names compared against it (`FILE`, `S3`) are
ASCII, for which per-character uppercasing is exactly `str.upper`. -/
def pyUpper (s : String) : String :=
  String.mk (s.data.map Char.toUpper)

/-- The `db_type` normalization of `DBProxy.__init__` (src/app/databases.py
lines 24-28): `db_type.upper() if db_type and db_type.upper() in
self.DB_TYPES else self.DB_DEFAULT`.  `db_type and …` is falsy for `None`
and for the empty string, and an uppercased value outside `DB_TYPES` falls
back to the default; no branch raises, so construction never fails on
account of `db_type`. -/
def normalizeDbType (db_type : Option String) : String :=
  match db_type with
  | none => DB_DEFAULT
  | some s =>
      if s ≠ "" ∧ pyUpper s ∈ DB_TYPES then pyUpper s else DB_DEFAULT

/-- State of one `DBProxy` instance together with its backing medium:
`db_type` the normalized selector, `db` the in-memory collection, and
`durable` the content of the durable copy (the local JSON file or the S3
object; `none` while no copy has been written). -/
structure DBProxyState where
  db_type : String
  db : PysonDB
  durable : Option PysonDB
deriving DecidableEq, Repr

/-- Embeds `DBProxy.save` (src/app/databases.py lines 72-82): write the whole
in-memory collection through to the durable medium — `db.commit(filename)`
for the FILE backend, `put_object` of `json.dumps(get_all())` for the S3
backend.  Both branches replace the durable copy with a snapshot of the
in-memory collection; any other `db_type` value writes nothing (neither
branch matches). -/
def DBProxyState.save (st : DBProxyState) : DBProxyState :=
  if st.db_type = "FILE" then { st with durable := some st.db }
  else if st.db_type = "S3" then { st with durable := some st.db }
  else st

/-- Embeds `DBProxy.add` (src/app/databases.py lines 36-39): `self.db.add(data)`,
then `self.save()`, then return the new id. -/
def DBProxyState.add (st : DBProxyState) (body : DocItem) :
    String × DBProxyState :=
  let (i, db') := st.db.addRecord body
  (i, DBProxyState.save { st with db := db' })

/-- Embeds `DBProxy.add_many` (src/app/databases.py lines 41-42):
`self.db.add_many(data)` — and nothing else: unlike `add`, `update_by_id`
and `delete_by_id`, this method does not call `self.save()`. -/
def DBProxyState.add_many (st : DBProxyState) (bodies : List DocItem) :
    DBProxyState :=
  { st with db := st.db.addManyRecords bodies }

/-- Embeds `DBProxy.update_by_id` (src/app/databases.py lines 53-55):
`self.db.update_by_id(...)` then `self.save()`; a missing id propagates as
a not-found error before any mutation. -/
def DBProxyState.update_by_id (st : DBProxyState) (i : String)
    (body : DocItem) : Option DBProxyState :=
  (st.db.updateById i body).map (fun db' => DBProxyState.save { st with db := db' })

/-- Embeds `DBProxy.delete_by_id` (src/app/databases.py lines 57-59):
`self.db.pop(...)` then `self.save()`; a missing id propagates as a
not-found error before any mutation. -/
def DBProxyState.delete_by_id (st : DBProxyState) (i : String) :
    Option DBProxyState :=
  (st.db.popById i).map (fun db' => DBProxyState.save { st with db := db' })

/-! ## General lemmas about the embedding's building blocks -/

theorem mem_foldl_insert {α : Type} [DecidableEq α] (l acc : List α) (a : α) :
    a ∈ l.foldl (fun acc v => if v ∈ acc then acc else acc ++ [v]) acc ↔
      a ∈ acc ∨ a ∈ l := by
  induction l generalizing acc with
  | nil => simp
  | cons x xs ih =>
      simp only [List.foldl_cons, List.mem_cons]
      by_cases hx : x ∈ acc
      · rw [if_pos hx, ih]
        constructor
        · rintro (h | h)
          · exact .inl h
          · exact .inr (.inr h)
        · rintro (h | rfl | h)
          · exact .inl h
          · exact .inl hx
          · exact .inr h
      · rw [if_neg hx, ih]
        simp only [List.mem_append, List.mem_singleton]
        tauto

theorem nodup_foldl_insert {α : Type} [DecidableEq α] (l acc : List α)
    (h : acc.Nodup) :
    (l.foldl (fun acc v => if v ∈ acc then acc else acc ++ [v]) acc).Nodup := by
  induction l generalizing acc with
  | nil => simpa using h
  | cons x xs ih =>
      simp only [List.foldl_cons]
      by_cases hx : x ∈ acc
      · rw [if_pos hx]; exact ih acc h
      · rw [if_neg hx]
        exact ih (acc ++ [x]) (by simp [List.nodup_append, h, hx])

theorem mem_firstOccur {α : Type} [DecidableEq α] (a : α) (l : List α) :
    a ∈ firstOccur l ↔ a ∈ l := by
  rw [firstOccur, mem_foldl_insert]
  simp

theorem nodup_firstOccur {α : Type} [DecidableEq α] (l : List α) :
    (firstOccur l).Nodup := by
  rw [firstOccur]
  exact nodup_foldl_insert l [] (by simp)

theorem length_filter_not {α : Type} (p : α → Bool) (l : List α) :
    (l.filter (fun a => !p a)).length = l.length - (l.filter p).length := by
  induction l with
  | nil => rfl
  | cons x xs ih =>
      have hle := List.length_filter_le p xs
      by_cases h : p x <;> simp [List.filter_cons, h] <;> omega

theorem sessionGet_append_fresh (rows : List Item) (it : Item)
    (h : ∀ r ∈ rows, r.id ≠ it.id) :
    sessionGet (rows ++ [it]) it.id = some it := by
  induction rows with
  | nil => simp [sessionGet]
  | cons r rs ih =>
      have hr : r.id ≠ it.id := h r (List.mem_cons_self r rs)
      have hrs := ih (fun x hx => h x (List.mem_cons_of_mem r hx))
      simp only [sessionGet, List.cons_append] at hrs ⊢
      rw [List.find?_cons_of_neg _ (by simpa using hr)]
      exact hrs

theorem sessionGet_map_replace (rows : List Item) (item_id : Nat) (u : Item)
    (hu : u.id = item_id) (it : Item)
    (hget : sessionGet rows item_id = some it) :
    sessionGet (rows.map (fun r => if r.id == item_id then u else r)) item_id =
      some u := by
  induction rows with
  | nil => simp [sessionGet] at hget
  | cons r rs ih =>
      by_cases h : r.id = item_id
      · simp only [sessionGet, List.map_cons]
        rw [if_pos (show (r.id == item_id) = true by simpa using h)]
        exact List.find?_cons_of_pos (p := fun r : Item => r.id == item_id) _
          (by simpa using hu)
      · have hb : ¬ (r.id == item_id) = true := by simpa using h
        have hget' : sessionGet rs item_id = some it := by
          simpa only [sessionGet,
            List.find?_cons_of_neg (p := fun r : Item => r.id == item_id) _ hb]
            using hget
        simp only [sessionGet, List.map_cons]
        rw [if_neg hb]
        rw [List.find?_cons_of_neg (p := fun r : Item => r.id == item_id) _ hb]
        exact ih hget'

theorem sessionGet_id_eq (rows : List Item) (item_id : Nat) (it : Item)
    (hget : sessionGet rows item_id = some it) : it.id = item_id := by
  have := List.find?_some hget
  simpa using this

theorem read_item_append_fresh (rows : List Item) (it : Item)
    (hfresh : ∀ r ∈ rows, r.id ≠ it.id) :
    read_item it.id true (rows ++ [it]) = .ok (itemToRead it) := by
  have hsg := sessionGet_append_fresh rows it hfresh
  simp [read_item, hsg]

/-! ## Claim theorems -/

/-- Claim C6: for every valid creation input — any JSON payload, any model,
any version, with the `deleted` field left at its default `False` —
`create_item` followed immediately by `read_item` of the new id with
`show_deleted=true` returns exactly the created record: its `data` is the
input payload after the `json.dumps`-then-`json.loads` round-trip,
`deleted` is false, and `last_updated` is absent.  The hypothesis is the
auto-increment invariant of the table: every stored rowid is below the next
fresh primary key. -/
theorem create_then_read_roundtrip (st : DBState) (now : Nat)
    (m : String) (v : Rat) (d : Json)
    (hfresh : ∀ r ∈ st.rows, r.id < st.nextId) :
    ∃ rec st',
      create_item st now { model := m, version := v, data := d, deleted := false } =
        (rec, st') ∧
      read_item rec.id true st'.rows = .ok rec ∧
      rec.data = (SerializedJson.dumps d).loads ∧
      rec.deleted = false ∧
      rec.last_updated = none := by
  refine ⟨_, _, rfl, ?_, rfl, rfl, rfl⟩
  exact read_item_append_fresh st.rows _
    (fun r hr => Nat.ne_of_lt (hfresh r hr))

/-- Concrete store for the claim-C6 witness: one fresh table. -/
def st6 : DBState := { rows := [], nextId := 1 }

/-- Concrete payload `{"a": 1}` used by several witnesses. -/
def payloadA1 : Json := Json.objCons "a" (Json.num 1) Json.objNil

/-- Witness for claim C6 at a concrete input. -/
theorem create_then_read_roundtrip_witness :
    (∀ r ∈ st6.rows, r.id < st6.nextId) ∧
    (∃ rec st',
      create_item st6 5 { model := "M", version := 1, data := payloadA1,
                          deleted := false } = (rec, st') ∧
      read_item rec.id true st'.rows = .ok rec ∧
      rec.data = (SerializedJson.dumps payloadA1).loads ∧
      rec.deleted = false ∧
      rec.last_updated = none) :=
  ⟨by simp [st6], create_then_read_roundtrip st6 5 "M" 1 payloadA1 (by simp [st6])⟩

/-- Claim C7: for every record present in the store, a soft delete
(`permanent=false`) followed by `read_item` with `show_deleted=false`
yields NotFound, while `read_item` with `show_deleted=true` yields the
record with `deleted=true` and `last_updated` set to the delete's
timestamp, every other field unchanged. -/
theorem soft_delete_then_read (st : DBState) (now : Nat) (item_id : Nat)
    (it : Item) (hget : sessionGet st.rows item_id = some it) :
    ∃ st', delete_item st now item_id false = .ok st' ∧
      read_item item_id false st'.rows = .error .notFound ∧
      read_item item_id true st'.rows =
        .ok { itemToRead it with deleted := true, last_updated := some now } := by
  have hid : it.id = item_id := sessionGet_id_eq _ _ _ hget
  have hsg2 : sessionGet
      (st.rows.map (fun r => if r.id == item_id then
        { it with deleted := true, last_updated := some now } else r)) item_id =
      some { it with deleted := true, last_updated := some now } :=
    sessionGet_map_replace _ _ _ (by simpa using hid) it hget
  refine ⟨{ st with rows := st.rows.map (fun r => if r.id == item_id then
      { it with deleted := true, last_updated := some now } else r) },
    by simp [delete_item, hget], ?_, ?_⟩
  · simp at hsg2
    simp [read_item, hsg2]
  · simp at hsg2
    simp [read_item, hsg2, itemToRead]

/-- Concrete store for the claim-C7 witness. -/
def it7 : Item :=
  { id := 1, model := "M", version := 2, data := SerializedJson.dumps payloadA1,
    deleted := false, created := 9, last_updated := none }

/-- Concrete one-record store for the claim-C7 witness. -/
def st7 : DBState := { rows := [it7], nextId := 2 }

/-- Witness for claim C7 at a concrete input. -/
theorem soft_delete_then_read_witness :
    sessionGet st7.rows 1 = some it7 ∧
    (∃ st', delete_item st7 30 1 false = .ok st' ∧
      read_item 1 false st'.rows = .error .notFound ∧
      read_item 1 true st'.rows =
        .ok { itemToRead it7 with deleted := true, last_updated := some 30 }) :=
  ⟨by decide, soft_delete_then_read st7 30 1 it7 (by decide)⟩

/-- Claim C9: for every existing record passing the deleted-visibility
check, PATCH changes exactly the supplied fields: each supplied field takes
the supplied value, each unsupplied field keeps the stored value, `id` and
`created` are unchanged, and `last_updated` is set to the update's
timestamp; the stored row is updated to the same record. -/
theorem update_item_frame (st : DBState) (now : Nat) (item_id : Nat)
    (patch : ItemUpdate) (update_deleted : Bool) (it : Item)
    (hget : sessionGet st.rows item_id = some it)
    (hvis : update_deleted = true ∨ it.deleted = false) :
    ∃ st',
      update_item st now item_id patch update_deleted =
        .ok ({ id := it.id,
               model := patch.model.getD it.model,
               version := patch.version.getD it.version,
               data := (match patch.data with
                        | some d => SerializedJson.dumps d
                        | none => it.data).loads,
               deleted := patch.deleted.getD it.deleted,
               created := it.created,
               last_updated := some now }, st') ∧
      sessionGet st'.rows item_id =
        some { applyItemUpdate patch it with last_updated := some now } := by
  have hid : it.id = item_id := sessionGet_id_eq _ _ _ hget
  have hcond : (!update_deleted && it.deleted) = false := by
    rcases hvis with h | h <;> simp [h]
  refine ⟨{ st with rows := st.rows.map (fun r => if r.id == item_id then
      { applyItemUpdate patch it with last_updated := some now } else r) },
    ?_, ?_⟩
  · simp [update_item, hget, hcond, applyItemUpdate, itemToRead]
  · exact sessionGet_map_replace _ _ _ (by simp [applyItemUpdate, hid]) it hget

/-- The patch of the claim-C9 witness: only `model` is supplied. -/
def patch9 : ItemUpdate :=
  { model := some "N", version := none, data := none, deleted := none }

/-- Witness for claim C9 at the concrete input of the spec's example: a
record with `data={"a":1}` and `model="M"`, patched with `{"model":"N"}`. -/
theorem update_item_frame_witness :
    sessionGet st7.rows 1 = some it7 ∧
    (false = true ∨ it7.deleted = false) ∧
    (∃ st',
      update_item st7 20 1 patch9 false =
        .ok ({ id := 1, model := "N", version := 2, data := payloadA1,
               deleted := false, created := 9, last_updated := some 20 }, st') ∧
      sessionGet st'.rows 1 =
        some { applyItemUpdate patch9 it7 with last_updated := some 20 }) :=
  ⟨by decide, Or.inr rfl,
    update_item_frame st7 20 1 patch9 false it7 (by decide) (Or.inr rfl)⟩

/-- Claim C5: the `/model/list` aggregation returns exactly one row per
distinct `model` value of the collection; in each row the active count
equals the number of non-deleted records of that model, active plus deleted
counts equal the total count, and the version histogram maps each distinct
version of that model (and no other) to its number of occurrences. -/
theorem read_model_list_correct (rows : List Item) :
    ((read_model_list rows).map (fun md => md.model)).Nodup ∧
    (∀ m, m ∈ (read_model_list rows).map (fun md => md.model) ↔
        m ∈ rows.map (fun r => r.model)) ∧
    (∀ md ∈ read_model_list rows,
      md.count =
        ((rows.filter (fun r => r.model == md.model)).filter
          (fun r => !r.deleted)).length ∧
      md.count + md.delete_count = md.total_count ∧
      (md.versions.map Prod.fst).Nodup ∧
      (∀ v, v ∈ md.versions.map Prod.fst ↔
          v ∈ (rows.filter (fun r => r.model == md.model)).map
              (fun r => r.version)) ∧
      (∀ p ∈ md.versions,
        p.2 = ((rows.filter (fun r => r.model == md.model)).map
            (fun r => r.version)).count p.1)) := by
  have hkeys : ∀ {α : Type} [DecidableEq α] (l : List α),
      (counter l).map Prod.fst = firstOccur l := by
    intro α _ l
    rw [counter, List.map_map]
    induction firstOccur l with
    | nil => rfl
    | cons x xs ih => exact congrArg (List.cons x) ih
  have hmap : (read_model_list rows).map (fun md => md.model) =
      firstOccur (rows.map (fun r => r.model)) := by
    rw [read_model_list, List.map_map]
    induction firstOccur (rows.map (fun r => r.model)) with
    | nil => rfl
    | cons x xs ih => exact congrArg (List.cons x) ih
  refine ⟨?_, ?_, ?_⟩
  · rw [hmap]; exact nodup_firstOccur _
  · intro m; rw [hmap]; exact mem_firstOccur m _
  · intro md hmd
    obtain ⟨m, _hm, rfl⟩ := List.mem_map.mp hmd
    simp only [modelRow]
    constructor
    · exact (length_filter_not (fun r : Item => r.deleted) _).symm
    refine ⟨?_, ?_, ?_, ?_⟩
    · have hle := List.length_filter_le (fun r => r.deleted)
        (rows.filter (fun r => r.model == m))
      omega
    · rw [hkeys]; exact nodup_firstOccur _
    · intro v; rw [hkeys]; exact mem_firstOccur v _
    · intro p hp
      rw [counter] at hp
      obtain ⟨v, _hv, rfl⟩ := List.mem_map.mp hp
      rfl

/-- Concrete store of the spec's `model_summary` example:
`{M,v=0}×2, {M,v=1}×1, {N,v=770}×1`, none deleted. -/
def exRows : List Item :=
  [ { id := 1, model := "M", version := 0, data := SerializedJson.dumps Json.objNil,
      deleted := false, created := 10, last_updated := none },
    { id := 2, model := "M", version := 0, data := SerializedJson.dumps Json.objNil,
      deleted := false, created := 11, last_updated := none },
    { id := 3, model := "M", version := 1, data := SerializedJson.dumps Json.objNil,
      deleted := false, created := 12, last_updated := none },
    { id := 4, model := "N", version := 770, data := SerializedJson.dumps Json.objNil,
      deleted := false, created := 13, last_updated := none } ]

/-- The aggregate row for model `M` in the spec's example. -/
def mdM : ModelMetadata :=
  { model := "M", count := 3, delete_count := 0, total_count := 3,
    oldest_timestamp := 10, newest_timestamp := 12,
    versions := [(0, 2), (1, 1)] }

/-- The aggregate row for model `N` in the spec's example. -/
def mdN : ModelMetadata :=
  { model := "N", count := 1, delete_count := 0, total_count := 1,
    oldest_timestamp := 13, newest_timestamp := 13,
    versions := [(770, 1)] }

/-- Witness for claim C5 at the spec's example input. -/
theorem read_model_list_correct_witness :
    read_model_list exRows = [mdM, mdN] ∧
    mdM ∈ read_model_list exRows ∧
    mdM.count =
      ((exRows.filter (fun r => r.model == mdM.model)).filter
        (fun r => !r.deleted)).length ∧
    mdM.count + mdM.delete_count = mdM.total_count := by
  have h := (read_model_list_correct exRows).2.2 mdM (by decide)
  exact ⟨by decide, by decide, h.1, h.2.1⟩

/-- A record of model `"A"`, used to exhibit the missing model filter of
the earlier `read_model_items` revision. -/
def rowA : Item :=
  { id := 1, model := "A", version := 0, data := SerializedJson.dumps payloadA1,
    deleted := false, created := 0, last_updated := none }

/-- Claim C1, evaluated at the failing input: the earlier revision's
`read_model_items` (src/app/main.py lines 247-268) queried for model `"B"`
over a store holding only a model-`"A"` record returns that record — its
query never filters on `model_name` — so a record whose `model` differs
from the filter appears in the result.  The current revision
(src/app/routers/models.py), which does apply
`.where(Item.model == model_name)`, returns the empty list on the same
input. -/
theorem read_model_items_ignores_model :
    read_model_items_legacy "B" true 0 none [rowA] = [itemToRead rowA] ∧
    (itemToRead rowA).model ≠ "B" ∧
    read_model_items "B" true 0 none [rowA] = [] := by
  refine ⟨by decide, by decide, by decide⟩

/-- Claim C2, evaluated at the failing input: PATCH of an identifier absent
from the store with `update_deleted=false` (the default) evaluates
`db_item.deleted` on `None` and raises `AttributeError` — it does not
return the NotFound signal. -/
theorem update_item_absent_raises :
    update_item { rows := [], nextId := 1 } 7 1
        { model := none, version := none, data := none, deleted := none }
        false = .error .attributeError ∧
    update_item { rows := [], nextId := 1 } 7 1
        { model := none, version := none, data := none, deleted := none }
        false ≠ .error .notFound := by
  refine ⟨rfl, by simp [update_item, sessionGet]⟩

/-- A store of 101 active records, enough to exceed the documented limit
cap. -/
def manyRows : List Item :=
  (List.range 101).map (fun n =>
    { id := n + 1, model := "M", version := 0,
      data := SerializedJson.dumps Json.null, deleted := false, created := 0,
      last_updated := none })

/-- Claim C3, evaluated at the failing input: with 101 stored records, a
caller-supplied `limit=101` is passed through unvalidated (`lte=100` in
`Query` enforces nothing) and the call returns 101 records — more than the
documented cap of 100.  When no limit is passed the default of 100 does
apply. -/
theorem limit_cap_not_enforced :
    (list_items false 0 (some 101) manyRows).length = 101 ∧
    100 < (list_items false 0 (some 101) manyRows).length ∧
    (list_items false 0 none manyRows).length = 100 := by
  refine ⟨by decide, by decide, by decide⟩

/-- Claim C4, evaluated at the failing input: the document revision's
`create_model_item` (src/main.py lines 252-272) called with `version=770`
returns a record with `version = 0` — the handler passes the literal `0`
instead of the query parameter its docstring documents.  The current
revision (src/app/routers/models.py lines 107-135) does store the supplied
value, and both default to 0 when the caller supplies none. -/
theorem create_model_item_v1_ignores_version :
    (create_model_item_v1 3 "M" payloadA1 (some 770)).version = 0 ∧
    (0 : Rat) ≠ 770 ∧
    (create_model_item { rows := [], nextId := 1 } 3 "M" payloadA1
      (some 770)).1.version = 770 ∧
    (create_model_item_v1 3 "M" payloadA1 none).version = 0 ∧
    (create_model_item { rows := [], nextId := 1 } 3 "M" payloadA1
      none).1.version = 0 := by
  refine ⟨rfl, by decide, rfl, rfl, rfl⟩

/-- A record body used by the `DBProxy` theorems. -/
def body0 : DocItem :=
  { created := 1, last_updated := none, model := "M", version := 0,
    data := payloadA1, metadata := {} }

/-- A `DBProxy` FILE-backend state whose durable copy is in sync with the
in-memory collection (the situation right after any successful `add`). -/
def dbSynced : DBProxyState :=
  { db_type := "FILE",
    db := { store := [], nextUuid := 0 },
    durable := some { store := [], nextUuid := 0 } }

/-- Counterexample to claim C8 as stated: `DBProxy.add_many` returns
successfully after mutating the in-memory collection but never calls
`save()`, so the durable copy no longer matches the in-memory state. -/
theorem add_many_not_persisted :
    (DBProxyState.add_many dbSynced [body0]).durable ≠
      some (DBProxyState.add_many dbSynced [body0]).db := by
  decide

/-- Durable write-through of `save` for the two real backends. -/
theorem save_write_through (st : DBProxyState)
    (hty : st.db_type = "FILE" ∨ st.db_type = "S3") :
    (DBProxyState.save st).durable = some st.db ∧
    (DBProxyState.save st).db = st.db := by
  rcases hty with h | h <;> simp [DBProxyState.save, h]

/-- Claim C8 as amended: for a `DBProxy` on either real backend (the
constructor normalizes `db_type` into `{FILE, S3}`), the mutating
operations `add`, `update_by_id` and `delete_by_id` persist the mutated
in-memory collection to the backing medium before returning successfully —
but `add_many` does not: it leaves the durable copy untouched while
mutating the in-memory collection. -/
theorem dbproxy_write_through (st : DBProxyState) (body : DocItem)
    (i : String) (hty : st.db_type = "FILE" ∨ st.db_type = "S3") :
    ((DBProxyState.add st body).2.durable =
      some (DBProxyState.add st body).2.db) ∧
    (∀ st', DBProxyState.update_by_id st i body = some st' →
      st'.durable = some st'.db) ∧
    (∀ st', DBProxyState.delete_by_id st i = some st' →
      st'.durable = some st'.db) ∧
    (∀ bodies : List DocItem,
      (DBProxyState.add_many st bodies).durable = st.durable) := by
  refine ⟨?_, ?_, ?_, fun bodies => rfl⟩
  · have h := save_write_through
      { st with db := (st.db.addRecord body).2 } (by simpa using hty)
    show (DBProxyState.save { st with db := (st.db.addRecord body).2 }).durable =
      some (DBProxyState.save { st with db := (st.db.addRecord body).2 }).db
    rw [h.1, h.2]
  · intro st' hst'
    rcases hdb : st.db.updateById i body with _ | db'
    · simp [DBProxyState.update_by_id, hdb] at hst'
    · have h := save_write_through { st with db := db' } (by simpa using hty)
      have hx : DBProxyState.save { st with db := db' } = st' := by
        simpa [DBProxyState.update_by_id, hdb] using hst'
      rw [← hx, h.1, h.2]
  · intro st' hst'
    rcases hdb : st.db.popById i with _ | db'
    · simp [DBProxyState.delete_by_id, hdb] at hst'
    · have h := save_write_through { st with db := db' } (by simpa using hty)
      have hx : DBProxyState.save { st with db := db' } = st' := by
        simpa [DBProxyState.delete_by_id, hdb] using hst'
      rw [← hx, h.1, h.2]

/-- A `DBProxy` FILE-backend state holding one record, for the claim-C8
witness. -/
def dbOne : DBProxyState :=
  { db_type := "FILE",
    db := { store := [("uuid-0", body0)], nextUuid := 1 },
    durable := some { store := [("uuid-0", body0)], nextUuid := 1 } }

/-- Witness for claim C8 (amended) at concrete inputs. -/
theorem dbproxy_write_through_witness :
    (dbOne.db_type = "FILE" ∨ dbOne.db_type = "S3") ∧
    ((DBProxyState.add dbOne body0).2.durable =
      some (DBProxyState.add dbOne body0).2.db) ∧
    (DBProxyState.update_by_id dbOne "uuid-0" body0 =
      some { db_type := "FILE",
             db := { store := [("uuid-0", body0)], nextUuid := 1 },
             durable := some { store := [("uuid-0", body0)], nextUuid := 1 } }) ∧
    (({ db_type := "FILE",
        db := { store := [("uuid-0", body0)], nextUuid := 1 },
        durable := some { store := [("uuid-0", body0)], nextUuid := 1 } } :
          DBProxyState).durable =
      some ({ db_type := "FILE",
              db := { store := [("uuid-0", body0)], nextUuid := 1 },
              durable := some { store := [("uuid-0", body0)], nextUuid := 1 } } :
                DBProxyState).db) :=
  ⟨Or.inl rfl,
   (dbproxy_write_through dbOne body0 "uuid-0" (Or.inl rfl)).1,
   by decide,
   (dbproxy_write_through dbOne body0 "uuid-0" (Or.inl rfl)).2.1 _ (by decide)⟩

/-- Claim C10: `DBProxy.__init__`'s handling of `db_type` is total — the
normalized selector always lands in `DB_TYPES`, and both `None` and any
string whose uppercase form is not `FILE` or `S3` silently select the FILE
default rather than signalling an invalid-backend error. -/
theorem normalizeDbType_total_default (db_type : Option String) :
    normalizeDbType db_type ∈ DB_TYPES ∧
    (db_type = none → normalizeDbType db_type = DB_DEFAULT) ∧
    (∀ s, db_type = some s → pyUpper s ∉ DB_TYPES →
      normalizeDbType db_type = DB_DEFAULT) := by
  rcases db_type with _ | s
  · refine ⟨by simp [normalizeDbType, DB_DEFAULT, DB_TYPES], fun _ => rfl, ?_⟩
    intro s h
    exact absurd h (by simp)
  · refine ⟨?_, ?_, ?_⟩
    · by_cases h : s ≠ "" ∧ pyUpper s ∈ DB_TYPES
      · rw [normalizeDbType, if_pos h]
        exact h.2
      · rw [normalizeDbType, if_neg h]
        simp [DB_DEFAULT, DB_TYPES]
    · intro h
      exact absurd h (by simp)
    · intro s' hs hnot
      cases hs
      rw [normalizeDbType, if_neg (fun hc => hnot hc.2)]

/-- Witness for claim C10 at a concrete input: an unknown backend string
normalizes to the FILE default. -/
theorem normalizeDbType_witness :
    pyUpper "mongodb" ∉ DB_TYPES ∧
    normalizeDbType (some "mongodb") = DB_DEFAULT ∧
    normalizeDbType (some "mongodb") ∈ DB_TYPES :=
  ⟨by decide,
   (normalizeDbType_total_default (some "mongodb")).2.2 "mongodb" rfl (by decide),
   (normalizeDbType_total_default (some "mongodb")).1⟩

end FormHole
